import Mathlib

/-!
Shallow embedding of the federated audio-acquisition backend
(`src/main.py` of Abhishek31an/video-notes-backend).

The embedding models:
* the module-level provider lists `COBALT_INSTANCES` and `PIPED_INSTANCES`;
* the engine `download_audio_federated` (main.py lines 79-187), with
  external HTTP behaviour supplied by an `Env` of oracle functions, the
  file at the destination path modelled as an `Option Nat` (its size, or
  `none` when absent), Python's in-place `random.shuffle` modelled as the
  engine replacing the global lists by the shuffled lists it iterates,
  and every per-attempt exception modelled as `Except` with the engine's
  `try/except: continue` as an explicit catch;
* the identifier helper `get_video_id` (called at main.py line 145 but
  absent from the sources; modelled from the spec);
* the Gemini fallback helper `get_working_gemini_response`, the notes
  generator `generate_study_notes`, and the `/generate` endpoint handler
  `generate_notes_endpoint` (lines 190-342).
-/

/-! ## Character-list string helpers (kernel-friendly parsing) -/

/-- Python's `str.rstrip("/")`: drop every trailing `/`. -/
def rstripSlash (s : String) : String :=
  String.mk ((s.data.reverse.dropWhile (· = '/')).reverse)

/-- Split a character list at every occurrence of `sep` (like Python `str.split(sep)`). -/
def splitOnCharL (sep : Char) : List Char → List (List Char)
  | [] => [[]]
  | c :: rest =>
    let r := splitOnCharL sep rest
    if c = sep then [] :: r
    else
      match r with
      | [] => [[c]]
      | h :: t => (c :: h) :: t

/-! ## Source identifier extraction

`get_video_id` is called by `download_audio_federated` at main.py line 145
but its definition does not appear in the sources. -/

/-- Look up the value of query parameter `v` in a query string (already split
off the URL and without the leading `?`). -/
def queryParamV (query : List Char) : Option (List Char) :=
  (splitOnCharL '&' query).findSome? fun part =>
    if part.take 2 = ['v', '='] then some (part.drop 2) else none

/-- Strip a leading `https://` or `http://` scheme. -/
def dropSchemeL (cs : List Char) : List Char :=
  if cs.take 8 = "https://".data then cs.drop 8
  else if cs.take 7 = "http://".data then cs.drop 7
  else cs

/-- Modelled from the spec: the definition of `get_video_id` is missing from
the sources (main.py calls it at line 145 but never defines it), so this
follows spec §4.2 — short-link host (`youtu.be`) with the identifier as the
first path segment; canonical host with the identifier in the `v` query
parameter; canonical host with the identifier as a path segment under an
`embed/` or `v/` path; `none` (never an error) for any unrecognized shape. -/
def get_video_id (url : String) : Option String :=
  let rest := dropSchemeL url.data
  let host := rest.takeWhile (· ≠ '/')
  let tail := (rest.dropWhile (· ≠ '/')).drop 1
  let path := tail.takeWhile (· ≠ '?')
  let query := (tail.dropWhile (· ≠ '?')).drop 1
  if host = "youtu.be".data then
    let seg := path.takeWhile (· ≠ '/')
    if seg.isEmpty then none else some (String.mk seg)
  else if host = "www.youtube.com".data ∨ host = "youtube.com".data ∨
          host = "m.youtube.com".data then
    match queryParamV query with
    | some v => if v.isEmpty then none else some (String.mk v)
    | none =>
      if path.take 6 = "embed/".data then
        let seg := ((path.drop 6).takeWhile (· ≠ '/'))
        if seg.isEmpty then none else some (String.mk seg)
      else if path.take 2 = "v/".data then
        let seg := ((path.drop 2).takeWhile (· ≠ '/'))
        if seg.isEmpty then none else some (String.mk seg)
      else none
  else none

/-! ## Configured provider lists (main.py lines 50-77) -/

/-- `COBALT_INSTANCES` (main.py lines 50-62). -/
def COBALT_INSTANCES : List String := [
  "https://api.cobalt.best",
  "https://cobalt.moskas.io",
  "https://cobalt.xy2401.com",
  "https://api.cobalt.kwiatekmiki.pl",
  "https://cobalt.steamys.me",
  "https://cobalt.q11.app",
  "https://api.cobalt.minaev.su",
  "https://cobalt.lacus.mynetgear.com",
  "https://cobalt.mc.hzuccon.com",
  "https://api.server.cobalt.tools",
  "https://cobalt.154.53.58.117.sslip.io"
]

/-- `PIPED_INSTANCES` (main.py lines 65-77). -/
def PIPED_INSTANCES : List String := [
  "https://pipedapi.tokhmi.xyz",
  "https://pipedapi.moomoo.me",
  "https://pipedapi.syncpundit.io",
  "https://pipedapi.kavin.rocks",
  "https://piped-api.lunar.icu",
  "https://ytapi.dc09.ru",
  "https://pipedapi.r4fo.com",
  "https://api.piped.yt",
  "https://pipedapi.rivo.lol",
  "https://api-piped.mha.fi",
  "https://pipedapi.leptons.xyz"
]

/-- The pair of module-level provider lists. Python's `random.shuffle` at
main.py lines 108 and 150 reorders these lists in place, so the engine gets
the current lists and returns the (possibly re-shuffled) lists. -/
structure Globals where
  cobaltInstances : List String
  pipedInstances : List String
  deriving DecidableEq, Repr

/-! ## Response shapes -/

/-- One element of a Cobalt response's `picker` array; `url` is `none` when
the key is absent. -/
structure PickerItem where
  url : Option String
  deriving DecidableEq, Repr

/-- Parsed JSON body of a Cobalt `/api/json` response: the fields probed at
main.py line 120. `none` means the key is absent. -/
structure CobaltData where
  url : Option String
  picker : Option (List PickerItem)
  audio : Option String
  deriving DecidableEq, Repr

/-- One entry of a Piped response's `audioStreams` array; each field is
`none` when the key is absent. -/
structure PipedStream where
  mimeType : Option String
  url : Option String
  deriving DecidableEq, Repr

/-- Parsed JSON body of a Piped `/streams/{id}` response. -/
structure PipedData where
  audioStreams : Option (List PipedStream)
  deriving DecidableEq, Repr

/-- Result of an HTTP request whose body, when the status is read as 200,
is parsed as JSON of type `α`: either the request itself raised
(`netErr`, e.g. timeout/connection error), or a status code arrived with a
body whose `.json()` parse may itself raise (`Except.error`). -/
inductive HttpResp (α : Type)
  | netErr
  | resp (code : Nat) (body : Except Unit α)

/-- Result of the streamed `requests.get(..., stream=True)` download at
main.py lines 124-128 / 170-174: `errBeforeOpen` models a raise before the
destination file is opened (connection failure or `raise_for_status`),
`errMidWrite n` a raise after the file was opened `'wb'` and `n` bytes were
written, `ok n` a completed transfer leaving an `n`-byte file. -/
inductive DownloadOutcome
  | errBeforeOpen
  | errMidWrite (partialSize : Nat)
  | ok (size : Nat)

/-- Python truthiness of an optional string: `None` and `""` are falsy. -/
def truthy : Option String → Bool
  | none => false
  | some s => s ≠ ""

/-- The Cobalt submission payload built at main.py lines 100-106. -/
structure CobaltPayload where
  url : String
  vCodec : String
  vQuality : String
  aFormat : String
  isAudioOnly : Bool

/-- `cobalt_payload` (main.py lines 100-106). -/
def cobalt_payload (video_url : String) : CobaltPayload :=
  { url := video_url, vCodec := "h264", vQuality := "720",
    aFormat := "mp3", isAudioOnly := true }

/-- External-world oracle: how every endpoint answers during one engine run,
plus the permutations `random.shuffle` would produce. `cobaltPost` is keyed
by the submission address (`base + "/api/json"`), `pipedGet` by the lookup
address (`base + "/streams/" + id`), `httpGet` by the download address. -/
structure Env where
  cobaltPost : String → CobaltPayload → HttpResp CobaltData
  pipedGet : String → HttpResp PipedData
  httpGet : String → DownloadOutcome
  shuffleCobalt : List String → List String
  shufflePiped : List String → List String

/-- The download-link probing at main.py line 120:
`data.get("url") or data.get("picker", [{}])[0].get("url") or data.get("audio")`.
Python `or` keeps the first truthy operand; `[0]` on a present-but-empty
`picker` list raises `IndexError` (modelled as `Except.error`); an absent
`picker` defaults to `[{}]`, whose first element has no `url`. -/
def cobaltLink (data : CobaltData) : Except Unit (Option String) :=
  if truthy data.url then .ok data.url
  else
    match data.picker with
    | some [] => .error ()
    | some (item :: _) =>
      if truthy item.url then .ok item.url else .ok data.audio
    | none => .ok data.audio

/-- The stream filter at main.py line 164:
`s.get("mimeType", "").startswith("audio")`. -/
def isAudioStream (s : PipedStream) : Bool :=
  (s.mimeType.getD "").startsWith "audio"

/-! ## The engine state -/

/-- Which provider family an attempt belongs to. -/
inductive Family
  | cobalt
  | piped
  deriving DecidableEq, Repr

/-- Trace record of one candidate attempt: the family, the raw instance
string, and the state of the destination file (its size, or `none` when
absent) at the moment the attempt begins. -/
structure Attempt where
  fam : Family
  endpoint : String
  fsAtStart : Option Nat
  deriving DecidableEq, Repr

instance : Inhabited Attempt := ⟨⟨Family.cobalt, "", none⟩⟩

/-- Result of one family loop: the returned path (or `none`), the file state
after the loop, and the attempts made. -/
structure LoopRes where
  result : Option String
  fs : Option Nat
  attempts : List Attempt
  deriving DecidableEq, Repr

/-- Result of a whole `download_audio_federated` call: the returned value,
the final state of the destination file, the trace of candidate attempts in
order, and the module-level lists after the call. -/
structure RunResult where
  result : Option String
  fs : Option Nat
  attempts : List Attempt
  globals : Globals
  deriving DecidableEq, Repr

/-- `os.path.join(os.getcwd(), output_filename + ".mp3")` (main.py line 84). -/
def outputPathOf (cwd output_filename : String) : String :=
  cwd ++ "/" ++ (output_filename ++ ".mp3")

/-! ## One Cobalt attempt (the `try` body at main.py lines 111-136) -/

/-- Body of the per-instance `try` block of the Cobalt loop (main.py lines
111-136). An `Except.error fs` models an exception raised with the
destination file in state `fs` (file writes are not rolled back by a raise);
an `Except.ok (fs, success)` models the body running to completion, where
`success` means the size check at line 130 passed and the function returns
the artifact path. -/
def cobaltAttempt (env : Env) (video_url : String) (inst : String)
    (fs : Option Nat) : Except (Option Nat) (Option Nat × Bool) :=
  let base_url := rstripSlash inst
  let api_url := base_url ++ "/api/json"
  match env.cobaltPost api_url (cobalt_payload video_url) with
  | .netErr => .error fs
  | .resp code body =>
    if code = 200 then
      match body with
      | .error _ => .error fs
      | .ok data =>
        match cobaltLink data with
        | .error _ => .error fs
        | .ok download_link =>
          if truthy download_link then
            match env.httpGet (download_link.getD "") with
            | .errBeforeOpen => .error fs
            | .errMidWrite p => .error (some p)
            | .ok size =>
              .ok (some size, decide (1024 < size))
          else
            .ok (fs, false)
    else
      .ok (fs, false)

/-- One iteration of the Cobalt loop with its `except Exception: continue`
(main.py lines 138-140): an exception becomes a failed attempt. Returns the
file state after the attempt and whether the attempt succeeded. -/
def cobaltStep (env : Env) (video_url : String) (inst : String)
    (fs : Option Nat) : Option Nat × Bool :=
  match cobaltAttempt env video_url inst fs with
  | .error fs' => (fs', false)
  | .ok r => r

/-- The Cobalt rotation loop (main.py lines 110-140): first success returns
the artifact path, otherwise every candidate is tried. -/
def cobaltLoop (env : Env) (video_url outputPath : String) :
    List String → Option Nat → LoopRes
  | [], fs => ⟨none, fs, []⟩
  | inst :: rest, fs =>
    let s := cobaltStep env video_url inst fs
    if s.2 then ⟨some outputPath, s.1, [⟨Family.cobalt, inst, fs⟩]⟩
    else
      let r := cobaltLoop env video_url outputPath rest s.1
      ⟨r.result, r.fs, ⟨Family.cobalt, inst, fs⟩ :: r.attempts⟩

/-! ## One Piped attempt (the `try` body at main.py lines 153-181) -/

/-- Body of the per-instance `try` block of the Piped loop (main.py lines
153-181), with the same `Except` reading as `cobaltAttempt`. A stream whose
`url` key is absent raises `KeyError` at line 167. -/
def pipedAttempt (env : Env) (video_id : String) (inst : String)
    (fs : Option Nat) : Except (Option Nat) (Option Nat × Bool) :=
  let base_url := rstripSlash inst
  let api_url := base_url ++ "/streams/" ++ video_id
  match env.pipedGet api_url with
  | .netErr => .error fs
  | .resp code body =>
    if code = 200 then
      match body with
      | .error _ => .error fs
      | .ok data =>
        let audio_streams := data.audioStreams.getD []
        match audio_streams.find? isAudioStream with
        | none => .ok (fs, false)
        | some target_stream =>
          match target_stream.url with
          | none => .error fs
          | some stream_url =>
            match env.httpGet stream_url with
            | .errBeforeOpen => .error fs
            | .errMidWrite p => .error (some p)
            | .ok size =>
              .ok (some size, decide (1024 < size))
    else
      .ok (fs, false)

/-- One iteration of the Piped loop with its `except Exception: continue`
(main.py lines 183-184). -/
def pipedStep (env : Env) (video_id : String) (inst : String)
    (fs : Option Nat) : Option Nat × Bool :=
  match pipedAttempt env video_id inst fs with
  | .error fs' => (fs', false)
  | .ok r => r

/-- The Piped fallback loop (main.py lines 152-184). -/
def pipedLoop (env : Env) (video_id outputPath : String) :
    List String → Option Nat → LoopRes
  | [], fs => ⟨none, fs, []⟩
  | inst :: rest, fs =>
    let s := pipedStep env video_id inst fs
    if s.2 then ⟨some outputPath, s.1, [⟨Family.piped, inst, fs⟩]⟩
    else
      let r := pipedLoop env video_id outputPath rest s.1
      ⟨r.result, r.fs, ⟨Family.piped, inst, fs⟩ :: r.attempts⟩

/-! ## The engine (main.py lines 79-187) -/

/-- `download_audio_federated` (main.py lines 79-187). `g` holds the current
module-level lists, `fs0` the state of any pre-existing file at the
destination path, `cwd` the working directory; `output_filename` defaults to
`"temp_audio"` as in the Python signature. Lines modelled: 84 (path), 86-87
(remove pre-existing file), 108 (in-place shuffle of `COBALT_INSTANCES`),
110-140 (Cobalt loop), 145-148 (identifier extraction, early `None` when it
fails), 150 (in-place shuffle of `PIPED_INSTANCES`), 152-184 (Piped loop),
187 (definitive failure). -/
def download_audio_federated (env : Env) (g : Globals) (fs0 : Option Nat)
    (cwd : String) (video_url : String)
    (output_filename : String := "temp_audio") : RunResult :=
  let output_path := outputPathOf cwd output_filename
  -- lines 86-87: a pre-existing file at the destination path is removed
  let fs1 : Option Nat := none
  let shuffledC := env.shuffleCobalt g.cobaltInstances
  let g1 : Globals := { g with cobaltInstances := shuffledC }
  let rc := cobaltLoop env video_url output_path shuffledC fs1
  match rc.result with
  | some p => ⟨some p, rc.fs, rc.attempts, g1⟩
  | none =>
    match get_video_id video_url with
    | none => ⟨none, rc.fs, rc.attempts, g1⟩
    | some video_id =>
      let shuffledP := env.shufflePiped g1.pipedInstances
      let g2 : Globals := { g1 with pipedInstances := shuffledP }
      let rp := pipedLoop env video_id output_path shuffledP rc.fs
      ⟨rp.result, rp.fs, rc.attempts ++ rp.attempts, g2⟩

/-- The call the `/generate` handler makes at main.py line 323:
`download_audio_federated(url)`, with the default `output_filename`. -/
def generateJobDownload (env : Env) (g : Globals) (fs0 : Option Nat)
    (cwd : String) (url : String) : RunResult :=
  download_audio_federated env g fs0 cwd url

/-! ## AI engine (main.py lines 190-292) and the `/generate` handler -/

/-- `MODEL_PRIORITY_LIST` (main.py lines 190-195). -/
def MODEL_PRIORITY_LIST : List String := [
  "gemini-2.0-flash",
  "gemini-2.0-flash-lite",
  "gemini-1.5-flash",
  "gemini-1.5-pro"
]

/-- The fixed fallback string returned at main.py line 216 when every model
in `MODEL_PRIORITY_LIST` has failed. -/
def overloadedMsg : String :=
  "Sorry, the AI is currently overloaded. Please wait 1 minute and try again."

/-- The model-fallback loop of `get_working_gemini_response` (main.py lines
199-214): every exception (429, 404 or other) advances to the next model;
`respond model prompt` is the oracle for `model.generate_content`. -/
def geminiFallback (respond : String → String → Except String String)
    (prompt_parts : String) : List String → String
  | [] => overloadedMsg
  | model_name :: rest =>
    match respond model_name prompt_parts with
    | .ok response => response
    | .error _ => geminiFallback respond prompt_parts rest

/-- `get_working_gemini_response` (main.py lines 197-216). -/
def get_working_gemini_response (respond : String → String → Except String String)
    (prompt_parts : String) : String :=
  geminiFallback respond prompt_parts MODEL_PRIORITY_LIST

/-- Python's `len(s.split())`: number of maximal whitespace-free runs. -/
def countWords (s : String) : Nat :=
  ((s.split Char.isWhitespace).filter (· ≠ "")).length

/-- The f-string prompt of `generate_study_notes` (main.py lines 266-290),
as a function of the interpolated `target_language` and the transcript
chunk `transcript_text[:50000]`. -/
def notesPrompt (target_language chunk : String) : String :=
  "\n    You are an expert AI tutor. \n    Target Language: " ++ target_language ++
  ".\n    \n    Generate:\n    1. A Comprehensive Markdown Summary.\n    2. Key Concepts (Bullet points).\n    3. A JSON Quiz block at the very end.\n\n    Format:\n    # 📝 Video Summary\n    [Summary]\n    ## 🔑 Key Concepts\n    - [Point 1]\n    - [Point 2]\n    \n    ```json\n    [\n        \x7b \"question\": \"...\", \"options\": [\"A\", \"B\", \"C\", \"D\"], \"answer\": 0 \x7d\n    ]\n    ```\n\n    **Transcript:**\n    " ++ chunk ++ " \n    "

/-- `generate_study_notes` (main.py lines 255-292): `None` for a falsy
transcript, otherwise the Gemini fallback applied to the prompt built from
the target language and the first 50000 characters of the transcript.
`target_length` (line 262) is computed but never used. -/
def generate_study_notes (respond : String → String → Except String String)
    (transcript_text : String) (target_language : String := "English") :
    Option String :=
  if transcript_text = "" then none
  else
    let words := countWords transcript_text
    let target_length := max 300 (min 1500 (words / 2))
    let _ := target_length
    let prompt := notesPrompt target_language (transcript_text.take 50000)
    some (get_working_gemini_response respond prompt)

/-- Body a `/generate` response can take. -/
inductive Resp
  | success (markdown : Option String) (transcript : String)
  | error (msg : String)
  deriving DecidableEq, Repr

/-- `generate_notes_endpoint` (main.py lines 318-342), given the result of
the download stage and oracles for the transcription call (whose
`Except.error` models an exception raised inside the `try` block) and the
Gemini model calls. The second component of the result records whether the
audio artifact produced by a successful download is still on disk when the
handler returns: the handler removes it (lines 337-338) only on the path
that returns `"status": "success"`. -/
def generate_notes_endpoint (downloadResult : Option String)
    (transcribe : String → Except String String)
    (respond : String → String → Except String String)
    (language : String) : Resp × Bool :=
  match downloadResult with
  | none => (.error "Download failed. YouTube blocked all servers.", false)
  | some audio_file =>
    match transcribe audio_file with
    | .error e => (.error e, true)
    | .ok transcript =>
      if transcript = "" then (.error "Transcription failed", true)
      else
        let notes := generate_study_notes respond transcript language
        (.success notes transcript, false)

/-! ## Concrete test environments -/

/-- Environment in which every endpoint is unreachable and shuffles are the
identity. -/
def envDead : Env :=
  { cobaltPost := fun _ _ => .netErr
    pipedGet := fun _ => .netErr
    httpGet := fun _ => .errBeforeOpen
    shuffleCobalt := id
    shufflePiped := id }

/-- Environment in which the Cobalt instance `https://a` is unreachable,
`https://b` answers 200 with a download link `http://dl` whose transfer
yields a 5000-byte file, and everything else is unreachable; shuffles are
the identity. -/
def envOK : Env :=
  { cobaltPost := fun api_url _ =>
      if api_url = "https://b/api/json" then
        .resp 200 (.ok ⟨some "http://dl", none, none⟩)
      else .netErr
    pipedGet := fun _ => .netErr
    httpGet := fun u => if u = "http://dl" then .ok 5000 else .errBeforeOpen
    shuffleCobalt := id
    shufflePiped := id }

/-- Environment in which the Cobalt instance `https://a` answers 200 with a
download link `http://small` whose transfer completes with a 100-byte file
(at most the 1024-byte threshold), and everything else is unreachable. -/
def envSmall : Env :=
  { cobaltPost := fun api_url _ =>
      if api_url = "https://a/api/json" then
        .resp 200 (.ok ⟨some "http://small", none, none⟩)
      else .netErr
    pipedGet := fun _ => .netErr
    httpGet := fun u => if u = "http://small" then .ok 100 else .errBeforeOpen
    shuffleCobalt := id
    shufflePiped := id }

/-- Environment whose shuffles reverse the lists (a genuine permutation)
and whose endpoints are all unreachable. -/
def envRev : Env :=
  { cobaltPost := fun _ _ => .netErr
    pipedGet := fun _ => .netErr
    httpGet := fun _ => .errBeforeOpen
    shuffleCobalt := List.reverse
    shufflePiped := List.reverse }

/-- Small globals used in concrete runs. -/
def gSmall : Globals := ⟨["https://a", "https://b"], ["https://p"]⟩

/-- Globals with three Cobalt candidates, used in concrete runs. -/
def gThree : Globals := ⟨["https://a", "https://b", "https://c"], ["https://p"]⟩

/-! ## Per-step and per-loop lemmas -/

/-- Whether one Cobalt attempt on `inst` would succeed; this is independent
of the incoming file state. -/
def cobaltSucceeds (env : Env) (video_url inst : String) : Bool :=
  (cobaltStep env video_url inst none).2

/-- The success flag of a Cobalt step does not depend on the incoming file
state. -/
theorem cobaltStep_snd (env : Env) (video_url inst : String) (fs : Option Nat) :
    (cobaltStep env video_url inst fs).2 = cobaltSucceeds env video_url inst := by
  cases hp : env.cobaltPost (rstripSlash inst ++ "/api/json") (cobalt_payload video_url) with
  | netErr => simp [cobaltSucceeds, cobaltStep, cobaltAttempt, hp]
  | resp code body =>
    by_cases hc : code = 200
    · cases body with
      | error e => simp [cobaltSucceeds, cobaltStep, cobaltAttempt, hp, hc]
      | ok data =>
        cases hl : cobaltLink data with
        | error e => simp [cobaltSucceeds, cobaltStep, cobaltAttempt, hp, hc, hl]
        | ok dl =>
          by_cases ht : truthy dl
          · cases hg : env.httpGet (dl.getD "") <;>
              simp [cobaltSucceeds, cobaltStep, cobaltAttempt, hp, hc, hl, ht, hg]
          · simp [cobaltSucceeds, cobaltStep, cobaltAttempt, hp, hc, hl, ht]
    · simp [cobaltSucceeds, cobaltStep, cobaltAttempt, hp, hc]

/-- A successful Cobalt step leaves a file strictly larger than the
1024-byte threshold. -/
theorem cobaltStep_success_fs (env : Env) (u inst : String) (fs : Option Nat)
    (h : (cobaltStep env u inst fs).2 = true) :
    ∃ sz, (cobaltStep env u inst fs).1 = some sz ∧ 1024 < sz := by
  cases hp : env.cobaltPost (rstripSlash inst ++ "/api/json") (cobalt_payload u) with
  | netErr => simp [cobaltStep, cobaltAttempt, hp] at h
  | resp code body =>
    by_cases hc : code = 200
    · cases body with
      | error e => simp [cobaltStep, cobaltAttempt, hp, hc] at h
      | ok data =>
        cases hl : cobaltLink data with
        | error e => simp [cobaltStep, cobaltAttempt, hp, hc, hl] at h
        | ok dl =>
          by_cases ht : truthy dl
          · cases hg : env.httpGet (dl.getD "") with
            | errBeforeOpen => simp [cobaltStep, cobaltAttempt, hp, hc, hl, ht, hg] at h
            | errMidWrite p => simp [cobaltStep, cobaltAttempt, hp, hc, hl, ht, hg] at h
            | ok size =>
              refine ⟨size, ?_, ?_⟩
              · simp [cobaltStep, cobaltAttempt, hp, hc, hl, ht, hg]
              · simpa [cobaltStep, cobaltAttempt, hp, hc, hl, ht, hg] using h
          · simp [cobaltStep, cobaltAttempt, hp, hc, hl, ht] at h
    · simp [cobaltStep, cobaltAttempt, hp, hc] at h

/-- A successful Piped step leaves a file strictly larger than the
1024-byte threshold. -/
theorem pipedStep_success_fs (env : Env) (vid inst : String) (fs : Option Nat)
    (h : (pipedStep env vid inst fs).2 = true) :
    ∃ sz, (pipedStep env vid inst fs).1 = some sz ∧ 1024 < sz := by
  cases hp : env.pipedGet (rstripSlash inst ++ "/streams/" ++ vid) with
  | netErr => simp [pipedStep, pipedAttempt, hp] at h
  | resp code body =>
    by_cases hc : code = 200
    · cases body with
      | error e => simp [pipedStep, pipedAttempt, hp, hc] at h
      | ok data =>
        cases hf : (data.audioStreams.getD []).find? isAudioStream with
        | none => simp [pipedStep, pipedAttempt, hp, hc, hf] at h
        | some target_stream =>
          cases hu : target_stream.url with
          | none => simp [pipedStep, pipedAttempt, hp, hc, hf, hu] at h
          | some stream_url =>
            cases hg : env.httpGet stream_url with
            | errBeforeOpen => simp [pipedStep, pipedAttempt, hp, hc, hf, hu, hg] at h
            | errMidWrite p => simp [pipedStep, pipedAttempt, hp, hc, hf, hu, hg] at h
            | ok size =>
              refine ⟨size, ?_, ?_⟩
              · simp [pipedStep, pipedAttempt, hp, hc, hf, hu, hg]
              · simpa [pipedStep, pipedAttempt, hp, hc, hf, hu, hg] using h
    · simp [pipedStep, pipedAttempt, hp, hc] at h

/-- A Cobalt loop that returns `None` has attempted every candidate in
order. -/
theorem cobaltLoop_exhaust (env : Env) (u p : String) :
    ∀ (l : List String) (fs : Option Nat),
      (cobaltLoop env u p l fs).result = none →
      (cobaltLoop env u p l fs).attempts.map (fun a => (a.fam, a.endpoint))
        = l.map (fun e => (Family.cobalt, e))
  | [], _, _ => rfl
  | inst :: rest, fs, h => by
    cases hs : (cobaltStep env u inst fs).2 with
    | true => simp [cobaltLoop, hs] at h
    | false =>
      simp only [cobaltLoop, hs, Bool.false_eq_true, if_false, List.map_cons] at h ⊢
      exact congrArg (List.cons (Family.cobalt, inst))
        (cobaltLoop_exhaust env u p rest (cobaltStep env u inst fs).1 h)

/-- A Piped loop that returns `None` has attempted every candidate in
order. -/
theorem pipedLoop_exhaust (env : Env) (vid p : String) :
    ∀ (l : List String) (fs : Option Nat),
      (pipedLoop env vid p l fs).result = none →
      (pipedLoop env vid p l fs).attempts.map (fun a => (a.fam, a.endpoint))
        = l.map (fun e => (Family.piped, e))
  | [], _, _ => rfl
  | inst :: rest, fs, h => by
    cases hs : (pipedStep env vid inst fs).2 with
    | true => simp [pipedLoop, hs] at h
    | false =>
      simp only [pipedLoop, hs, Bool.false_eq_true, if_false, List.map_cons] at h ⊢
      exact congrArg (List.cons (Family.piped, inst))
        (pipedLoop_exhaust env vid p rest (pipedStep env vid inst fs).1 h)

/-- If the first `n` candidates fail and the `n`-th succeeds, the Cobalt
loop returns the artifact path and attempts exactly the first `n + 1`
candidates. -/
theorem cobaltLoop_success_at (env : Env) (u p : String) :
    ∀ (l : List String) (n : Nat) (fs : Option Nat),
      n < l.length →
      (∀ i, i < n → cobaltSucceeds env u (l.getD i "") = false) →
      cobaltSucceeds env u (l.getD n "") = true →
      (cobaltLoop env u p l fs).result = some p ∧
      (cobaltLoop env u p l fs).attempts.map (fun a => (a.fam, a.endpoint))
        = (l.take (n + 1)).map (fun e => (Family.cobalt, e))
  | [], n, _, hn, _, _ => absurd hn (by simp)
  | inst :: rest, 0, fs, _, _, hsucc => by
    have hs : (cobaltStep env u inst fs).2 = true := by
      rw [cobaltStep_snd]; simpa using hsucc
    simp [cobaltLoop, hs]
  | inst :: rest, n + 1, fs, hn, hfail, hsucc => by
    have h0 : (cobaltStep env u inst fs).2 = false := by
      rw [cobaltStep_snd]; simpa using hfail 0 (Nat.succ_pos n)
    have ih := cobaltLoop_success_at env u p rest n (cobaltStep env u inst fs).1
      (by simpa using hn)
      (fun i hi => by simpa using hfail (i + 1) (Nat.succ_lt_succ hi))
      (by simpa using hsucc)
    simp only [cobaltLoop, h0, Bool.false_eq_true, if_false, List.take_succ_cons,
      List.map_cons]
    exact ⟨ih.1, congrArg (List.cons (Family.cobalt, inst)) ih.2⟩

/-- A Cobalt loop returning an artifact returns the output path, with a
final file strictly above the threshold. -/
theorem cobaltLoop_success_fs (env : Env) (u p : String) :
    ∀ (l : List String) (fs : Option Nat) (q : String),
      (cobaltLoop env u p l fs).result = some q →
      q = p ∧ ∃ sz, (cobaltLoop env u p l fs).fs = some sz ∧ 1024 < sz
  | [], fs, q, h => by simp [cobaltLoop] at h
  | inst :: rest, fs, q, h => by
    cases hs : (cobaltStep env u inst fs).2 with
    | true =>
      simp only [cobaltLoop, hs, if_true] at h ⊢
      exact ⟨(Option.some_inj.mp h).symm, cobaltStep_success_fs env u inst fs hs⟩
    | false =>
      simp only [cobaltLoop, hs, Bool.false_eq_true, if_false] at h ⊢
      exact cobaltLoop_success_fs env u p rest (cobaltStep env u inst fs).1 q h

/-- A Piped loop returning an artifact returns the output path, with a
final file strictly above the threshold. -/
theorem pipedLoop_success_fs (env : Env) (vid p : String) :
    ∀ (l : List String) (fs : Option Nat) (q : String),
      (pipedLoop env vid p l fs).result = some q →
      q = p ∧ ∃ sz, (pipedLoop env vid p l fs).fs = some sz ∧ 1024 < sz
  | [], fs, q, h => by simp [pipedLoop] at h
  | inst :: rest, fs, q, h => by
    cases hs : (pipedStep env vid inst fs).2 with
    | true =>
      simp only [pipedLoop, hs, if_true] at h ⊢
      exact ⟨(Option.some_inj.mp h).symm, pipedStep_success_fs env vid inst fs hs⟩
    | false =>
      simp only [pipedLoop, hs, Bool.false_eq_true, if_false] at h ⊢
      exact pipedLoop_success_fs env vid p rest (pipedStep env vid inst fs).1 q h

/-- The first attempt of a Cobalt loop starts with the file state the loop
started with. -/
theorem cobaltLoop_head_fs (env : Env) (u p : String) :
    ∀ (l : List String) (fs : Option Nat) (a : Attempt),
      (cobaltLoop env u p l fs).attempts.head? = some a → a.fsAtStart = fs
  | [], fs, a, h => by simp [cobaltLoop] at h
  | inst :: rest, fs, a, h => by
    cases hs : (cobaltStep env u inst fs).2 <;>
      simp only [cobaltLoop, hs, Bool.false_eq_true, if_false, if_true,
        List.head?_cons, Option.some_inj] at h <;>
      simp [← h]

/-- The first attempt of a Piped loop starts with the file state the loop
started with. -/
theorem pipedLoop_head_fs (env : Env) (vid p : String) :
    ∀ (l : List String) (fs : Option Nat) (a : Attempt),
      (pipedLoop env vid p l fs).attempts.head? = some a → a.fsAtStart = fs
  | [], fs, a, h => by simp [pipedLoop] at h
  | inst :: rest, fs, a, h => by
    cases hs : (pipedStep env vid inst fs).2 <;>
      simp only [pipedLoop, hs, Bool.false_eq_true, if_false, if_true,
        List.head?_cons, Option.some_inj] at h <;>
      simp [← h]

/-- A Cobalt loop with no attempts left the file state unchanged (this only
happens on an empty candidate list). -/
theorem cobaltLoop_attempts_nil_fs (env : Env) (u p : String) :
    ∀ (l : List String) (fs : Option Nat),
      (cobaltLoop env u p l fs).attempts = [] →
      (cobaltLoop env u p l fs).fs = fs
  | [], _, _ => rfl
  | inst :: rest, fs, h => by
    cases hs : (cobaltStep env u inst fs).2 <;> simp [cobaltLoop, hs] at h

/-- A run that returns an artifact returns exactly the destination path. -/
theorem download_result_is_output_path (env : Env) (g : Globals) (fs0 : Option Nat)
    (cwd url fn q : String)
    (h : (download_audio_federated env g fs0 cwd url fn).result = some q) :
    q = outputPathOf cwd fn := by
  cases hrc : (cobaltLoop env url (outputPathOf cwd fn)
      (env.shuffleCobalt g.cobaltInstances) none).result with
  | some p =>
    simp only [download_audio_federated, hrc, Option.some.injEq] at h
    subst h
    exact (cobaltLoop_success_fs env url (outputPathOf cwd fn)
      (env.shuffleCobalt g.cobaltInstances) none p hrc).1
  | none =>
    cases hv : get_video_id url with
    | none => simp [download_audio_federated, hrc, hv] at h
    | some vid =>
      simp only [download_audio_federated, hrc, hv] at h
      exact (pipedLoop_success_fs env vid (outputPathOf cwd fn)
        (env.shufflePiped g.pipedInstances) _ q h).1

/-- C1: `download_audio_federated` never lets a per-endpoint exception
escape (each attempt's exceptions are caught and become "try the next
candidate", which the embedding makes structural: `cobaltStep`/`pipedStep`
catch every `Except.error` of the attempt bodies and the loops continue),
and it returns `None` only after every shuffled Cobalt candidate has been
attempted and — when an identifier could be extracted — every shuffled
Piped candidate as well; when no identifier could be extracted the
identifier-dependent family is skipped and no error is raised. -/
theorem C1_fails_only_after_exhaustion (env : Env) (g : Globals)
    (fs0 : Option Nat) (cwd url fn : String)
    (h : (download_audio_federated env g fs0 cwd url fn).result = none) :
    (download_audio_federated env g fs0 cwd url fn).attempts.map
        (fun a => (a.fam, a.endpoint))
      = (env.shuffleCobalt g.cobaltInstances).map (fun e => (Family.cobalt, e))
        ++ (match get_video_id url with
            | none => []
            | some _ => (env.shufflePiped g.pipedInstances).map
                (fun e => (Family.piped, e))) := by
  cases hrc : (cobaltLoop env url (outputPathOf cwd fn)
      (env.shuffleCobalt g.cobaltInstances) none).result with
  | some p => simp [download_audio_federated, hrc] at h
  | none =>
    cases hv : get_video_id url with
    | none =>
      simp only [download_audio_federated, hrc, hv] at h ⊢
      simpa using cobaltLoop_exhaust env url (outputPathOf cwd fn)
        (env.shuffleCobalt g.cobaltInstances) none hrc
    | some vid =>
      simp only [download_audio_federated, hrc, hv] at h ⊢
      rw [List.map_append]
      exact congrArg₂ (· ++ ·)
        (cobaltLoop_exhaust env url (outputPathOf cwd fn)
          (env.shuffleCobalt g.cobaltInstances) none hrc)
        (pipedLoop_exhaust env vid (outputPathOf cwd fn)
          (env.shufflePiped g.pipedInstances) _ h)

/-- Witness for C1: with every endpoint unreachable, both Cobalt candidates
and then the Piped candidate are attempted before the definitive failure. -/
theorem C1_witness :
    (download_audio_federated envDead gSmall none "/srv" "https://youtu.be/vid01"
        "temp_audio").attempts.map (fun a => (a.fam, a.endpoint))
      = [(Family.cobalt, "https://a"), (Family.cobalt, "https://b"),
         (Family.piped, "https://p")] :=
  (C1_fails_only_after_exhaustion envDead gSmall none "/srv" "https://youtu.be/vid01"
    "temp_audio" (by decide)).trans (by decide)

/-- C2: if the first `n` shuffled Cobalt candidates fail and the `n`-th
(0-based) succeeds — a 200 response carrying a usable download address whose
transfer passes the size check — the engine returns the artifact path and
the requests made are exactly those to the first `n + 1` Cobalt candidates:
none to any later Cobalt candidate, none to any Piped endpoint. -/
theorem C2_first_cobalt_success_short_circuits (env : Env) (g : Globals)
    (fs0 : Option Nat) (cwd url fn : String) (n : Nat)
    (hn : n < (env.shuffleCobalt g.cobaltInstances).length)
    (hfail : ∀ i, i < n →
      cobaltSucceeds env url ((env.shuffleCobalt g.cobaltInstances).getD i "") = false)
    (hsucc : cobaltSucceeds env url
      ((env.shuffleCobalt g.cobaltInstances).getD n "") = true) :
    (download_audio_federated env g fs0 cwd url fn).result
        = some (outputPathOf cwd fn) ∧
    (download_audio_federated env g fs0 cwd url fn).attempts.map
        (fun a => (a.fam, a.endpoint))
      = ((env.shuffleCobalt g.cobaltInstances).take (n + 1)).map
          (fun e => (Family.cobalt, e)) := by
  have hc := cobaltLoop_success_at env url (outputPathOf cwd fn)
    (env.shuffleCobalt g.cobaltInstances) n none hn hfail hsucc
  refine ⟨?_, ?_⟩
  · simp [download_audio_federated, hc.1]
  · simp only [download_audio_federated, hc.1]
    exact hc.2

/-- Witness for C2: the candidate at index 1 succeeds after index 0 fails;
the run returns the artifact path and contacts exactly the first two Cobalt
candidates. -/
theorem C2_witness :
    (download_audio_federated envOK gThree none "/srv" "https://u1" "temp_audio").result
        = some (outputPathOf "/srv" "temp_audio") ∧
    (download_audio_federated envOK gThree none "/srv" "https://u1"
        "temp_audio").attempts.map (fun a => (a.fam, a.endpoint))
      = [(Family.cobalt, "https://a"), (Family.cobalt, "https://b")] := by
  have h := C2_first_cobalt_success_short_circuits envOK gThree none "/srv" "https://u1"
    "temp_audio" 1 (by decide) (by decide) (by decide)
  exact ⟨h.1, h.2.trans (by decide)⟩

/-- C3 counterexample: with the first Cobalt candidate completing a transfer
of only 100 bytes (at most the 1024-byte threshold), the second candidate is
tried while the 100-byte file is still present — it is not deleted before the
next candidate, contradicting the claim — and the file even remains on disk
after the engine returns its definitive failure. -/
theorem C3_counterexample :
    (download_audio_federated envSmall gSmall none "/srv"
        "https://example.com/video/1" "temp_audio").attempts.map (fun a => a.fsAtStart)
      = [none, some 100] ∧
    (download_audio_federated envSmall gSmall none "/srv"
        "https://example.com/video/1" "temp_audio").fs = some 100 ∧
    ¬ (∀ a ∈ (download_audio_federated envSmall gSmall none "/srv"
        "https://example.com/video/1" "temp_audio").attempts, a.fsAtStart = none) := by
  decide

/-- C3 amended: any pre-existing file at the destination path is removed
before the first attempt (the first attempt always begins with no file at
the path, whatever `fs0` was), and an artifact at or below the 1024-byte
threshold is never returned — a returned artifact is the single destination
path with a final size strictly above 1024 bytes. (All attempts of a run
share that one destination path, so at most one artifact file exists per
request; but a failed attempt's undersized or partial file is NOT deleted
before the next candidate — it is only overwritten when a later attempt
opens the path for writing, and can remain on disk after the call.) -/
theorem C3_amended_removal_and_validity (env : Env) (g : Globals)
    (fs0 : Option Nat) (cwd url fn : String) :
    (∀ a, (download_audio_federated env g fs0 cwd url fn).attempts.head? = some a →
      a.fsAtStart = none) ∧
    (∀ q, (download_audio_federated env g fs0 cwd url fn).result = some q →
      q = outputPathOf cwd fn ∧
      ∃ sz, (download_audio_federated env g fs0 cwd url fn).fs = some sz ∧ 1024 < sz) := by
  constructor
  · intro a ha
    cases hrc : (cobaltLoop env url (outputPathOf cwd fn)
        (env.shuffleCobalt g.cobaltInstances) none).result with
    | some p =>
      simp only [download_audio_federated, hrc] at ha
      exact cobaltLoop_head_fs env url (outputPathOf cwd fn)
        (env.shuffleCobalt g.cobaltInstances) none a ha
    | none =>
      cases hv : get_video_id url with
      | none =>
        simp only [download_audio_federated, hrc, hv] at ha
        exact cobaltLoop_head_fs env url (outputPathOf cwd fn)
          (env.shuffleCobalt g.cobaltInstances) none a ha
      | some vid =>
        simp only [download_audio_federated, hrc, hv] at ha
        cases hca : (cobaltLoop env url (outputPathOf cwd fn)
            (env.shuffleCobalt g.cobaltInstances) none).attempts with
        | nil =>
          rw [hca, List.nil_append] at ha
          have hfs := cobaltLoop_attempts_nil_fs env url (outputPathOf cwd fn)
            (env.shuffleCobalt g.cobaltInstances) none hca
          exact (pipedLoop_head_fs env vid (outputPathOf cwd fn)
            (env.shufflePiped g.pipedInstances) _ a ha).trans hfs
        | cons x t =>
          rw [hca] at ha
          simp only [List.cons_append, List.head?_cons, Option.some_inj] at ha
          have hx := cobaltLoop_head_fs env url (outputPathOf cwd fn)
            (env.shuffleCobalt g.cobaltInstances) none x (by rw [hca]; rfl)
          rw [← ha]
          exact hx
  · intro q hq
    refine ⟨download_result_is_output_path env g fs0 cwd url fn q hq, ?_⟩
    cases hrc : (cobaltLoop env url (outputPathOf cwd fn)
        (env.shuffleCobalt g.cobaltInstances) none).result with
    | some p =>
      simp only [download_audio_federated, hrc] at hq ⊢
      exact (cobaltLoop_success_fs env url (outputPathOf cwd fn)
        (env.shuffleCobalt g.cobaltInstances) none p hrc).2
    | none =>
      cases hv : get_video_id url with
      | none => simp [download_audio_federated, hrc, hv] at hq
      | some vid =>
        simp only [download_audio_federated, hrc, hv] at hq ⊢
        exact (pipedLoop_success_fs env vid (outputPathOf cwd fn)
          (env.shufflePiped g.pipedInstances) _ q hq).2

/-- Witness for C3 amended: in the successful concrete run, the first
attempt starts with no file at the destination path and the returned
artifact's final size exceeds the threshold. -/
theorem C3_witness :
    (⟨Family.cobalt, "https://a", none⟩ : Attempt).fsAtStart = none ∧
    ∃ sz, (download_audio_federated envOK gThree none "/srv" "https://u1"
        "temp_audio").fs = some sz ∧ 1024 < sz := by
  have h := C3_amended_removal_and_validity envOK gThree none "/srv" "https://u1" "temp_audio"
  exact ⟨h.1 ⟨Family.cobalt, "https://a", none⟩ (by decide),
    (h.2 (outputPathOf "/srv" "temp_audio") (by decide)).2⟩

/-- C4: the identifier helper returns the platform identifier for the three
supported URL shapes and `none` for an unrecognized shape (the helper is
modelled from the spec, since `get_video_id` is called at main.py line 145
but never defined in the sources). -/
theorem C4_get_video_id_three_shapes :
    get_video_id "https://youtu.be/abc123XYZ9" = some "abc123XYZ9" ∧
    get_video_id "https://www.youtube.com/watch?v=abc123XYZ9&t=10" = some "abc123XYZ9" ∧
    get_video_id "https://example.com/video/1" = none := by
  decide

/-- C5 counterexample: the engine does not shuffle a copy — `random.shuffle`
at main.py line 108 reorders the module-level `COBALT_INSTANCES` in place,
so after a call whose shuffle produced the reversed order the configured
list itself has been mutated. -/
theorem C5_counterexample :
    (download_audio_federated envRev ⟨COBALT_INSTANCES, PIPED_INSTANCES⟩ none "/srv"
        "https://example.com/video/1" "temp_audio").globals.cobaltInstances
      ≠ COBALT_INSTANCES := by
  decide

/-- C5 amended: each request observes a randomly permuted ordering of the
candidate lists, but via an in-place shuffle of the shared module-level
lists rather than of copies: the call mutates the global lists (see the
counterexample), while preserving their elements — whenever the shuffle
functions are genuine permutations, the post-call lists are permutations of
the pre-call configured lists. -/
theorem C5_amended_inplace_shuffle_permutes (env : Env) (g : Globals)
    (fs0 : Option Nat) (cwd url fn : String)
    (hc : ∀ l : List String, (env.shuffleCobalt l).Perm l)
    (hp : ∀ l : List String, (env.shufflePiped l).Perm l) :
    ((download_audio_federated env g fs0 cwd url fn).globals.cobaltInstances).Perm
        g.cobaltInstances ∧
    ((download_audio_federated env g fs0 cwd url fn).globals.pipedInstances).Perm
        g.pipedInstances := by
  cases hrc : (cobaltLoop env url (outputPathOf cwd fn)
      (env.shuffleCobalt g.cobaltInstances) none).result with
  | some p =>
    refine ⟨?_, ?_⟩ <;> simp only [download_audio_federated, hrc]
    · exact hc _
    · exact List.Perm.refl _
  | none =>
    cases hv : get_video_id url with
    | none =>
      refine ⟨?_, ?_⟩ <;> simp only [download_audio_federated, hrc, hv]
      · exact hc _
      · exact List.Perm.refl _
    | some vid =>
      refine ⟨?_, ?_⟩ <;> simp only [download_audio_federated, hrc, hv]
      · exact hc _
      · exact hp _

/-- Witness for C5 amended: the reversing shuffle is a genuine permutation,
so the mutated global lists are permutations of the configured ones. -/
theorem C5_witness :
    ((download_audio_federated envRev gSmall none "/srv" "https://u1"
        "temp_audio").globals.cobaltInstances).Perm gSmall.cobaltInstances ∧
    ((download_audio_federated envRev gSmall none "/srv" "https://u1"
        "temp_audio").globals.pipedInstances).Perm gSmall.pipedInstances :=
  C5_amended_inplace_shuffle_permutes envRev gSmall none "/srv" "https://u1" "temp_audio"
    (fun l => l.reverse_perm) (fun l => l.reverse_perm)

/-- C6 counterexample: two distinct jobs submitted through `/generate` (the
call at main.py line 323 passes no `output_filename`) both acquire to the
same destination path `<cwd>/temp_audio.mp3` — destination paths are shared,
not fresh per job. -/
theorem C6_counterexample :
    ("https://u1" : String) ≠ "https://u2" ∧
    (generateJobDownload envOK gThree none "/srv" "https://u1").result
      = some "/srv/temp_audio.mp3" ∧
    (generateJobDownload envOK gThree none "/srv" "https://u2").result
      = some "/srv/temp_audio.mp3" := by
  refine ⟨by decide, by decide, by decide⟩

/-- C6 amended: every job's acquisition through `/generate` uses the one
fixed destination path `<cwd>/temp_audio.mp3` (the `output_filename`
default), so repeated or concurrent jobs share — rather than never share —
the destination artifact path. -/
theorem C6_amended_single_shared_path (env : Env) (g : Globals)
    (fs0 : Option Nat) (cwd url : String) :
    (generateJobDownload env g fs0 cwd url).result = none ∨
    (generateJobDownload env g fs0 cwd url).result
      = some (outputPathOf cwd "temp_audio") := by
  cases hr : (generateJobDownload env g fs0 cwd url).result with
  | none => exact Or.inl rfl
  | some q =>
    have hq := download_result_is_output_path env g fs0 cwd url "temp_audio" q hr
    exact Or.inr (by rw [hq])

/-- C7 counterexample: when transcription fails (a falsy transcript), the
`/generate` handler returns the error without removing the audio artifact —
the cleanup at main.py lines 337-338 sits only on the success path, so the
file remains on disk on this exit path, contradicting "removed on every exit
path". -/
theorem C7_counterexample :
    generate_notes_endpoint (some "/srv/temp_audio.mp3") (fun _ => .ok "")
      (fun _ _ => .ok "notes") "English" = (.error "Transcription failed", true) := rfl

/-- C7 amended: the `/generate` handler removes the audio artifact only on
the fully successful path; on every error exit reached after a successful
download — transcription failure or an exception raised inside the `try`
block — the artifact file remains on disk. -/
theorem C7_amended_cleanup_only_on_success (dl : Option String)
    (transcribe : String → Except String String)
    (respond : String → String → Except String String) (language : String) :
    (∀ m t, (generate_notes_endpoint dl transcribe respond language).1 = .success m t →
      (generate_notes_endpoint dl transcribe respond language).2 = false) ∧
    (∀ e p, dl = some p →
      (generate_notes_endpoint dl transcribe respond language).1 = .error e →
      (generate_notes_endpoint dl transcribe respond language).2 = true) := by
  cases dl with
  | none =>
    exact ⟨fun m t _ => rfl, fun e p hp => Option.noConfusion hp⟩
  | some audio_file =>
    cases ht : transcribe audio_file with
    | error e' =>
      refine ⟨fun m t h => ?_, fun e p hp h => ?_⟩
      · simp [generate_notes_endpoint, ht] at h
      · simp [generate_notes_endpoint, ht]
    | ok transcript =>
      by_cases htr : transcript = ""
      · refine ⟨fun m t h => ?_, fun e p hp h => ?_⟩
        · simp [generate_notes_endpoint, ht, htr] at h
        · simp [generate_notes_endpoint, ht, htr]
      · refine ⟨fun m t h => ?_, fun e p hp h => ?_⟩
        · simp [generate_notes_endpoint, ht, htr]
        · simp [generate_notes_endpoint, ht, htr] at h

/-- Witness for C7 amended: a successful run removes the artifact; a run
whose transcription stage raises leaves it on disk. -/
theorem C7_witness :
    (generate_notes_endpoint (some "/srv/temp_audio.mp3") (fun _ => .ok "hello")
        (fun _ _ => .ok "notes") "English").2 = false ∧
    (generate_notes_endpoint (some "/srv/temp_audio.mp3") (fun _ => .error "boom")
        (fun _ _ => .ok "notes") "English").2 = true := by
  refine ⟨?_, ?_⟩
  · exact (C7_amended_cleanup_only_on_success (some "/srv/temp_audio.mp3")
      (fun _ => .ok "hello") (fun _ _ => .ok "notes") "English").1
      (some "notes") "hello" rfl
  · exact (C7_amended_cleanup_only_on_success (some "/srv/temp_audio.mp3")
      (fun _ => .error "boom") (fun _ _ => .ok "notes") "English").2
      "boom" "/srv/temp_audio.mp3" rfl rfl

/-- First `url` of the `picker` array, when the array is present and
nonempty. -/
def pickerFirstUrl (data : CobaltData) : Option String :=
  match data.picker with
  | some (item :: _) => item.url
  | _ => none

/-- C8: on a 200 Cobalt response, the probing at main.py line 120 checks
`url`, then the `url` of the first `picker` element, then `audio`, in that
order, and uses the first field present: whenever the present fields hold
actual (non-empty) addresses and a present `picker` array is nonempty, the
extracted link is the first present of the three probed positions — so an
address carried under a later-probed field name is still found. -/
theorem C8_field_probing_first_present (data : CobaltData)
    (hpk : data.picker ≠ some [])
    (h1 : data.url ≠ some "")
    (h2 : pickerFirstUrl data ≠ some "") :
    cobaltLink data = .ok ((data.url.or (pickerFirstUrl data)).or data.audio) := by
  cases hu : data.url with
  | some s =>
    have hs : s ≠ "" := fun h => h1 (by rw [hu, h])
    simp [cobaltLink, truthy, hu, hs, Option.or]
  | none =>
    cases hp2 : data.picker with
    | none => simp [cobaltLink, truthy, hu, hp2, pickerFirstUrl, Option.or]
    | some l =>
      cases l with
      | nil => exact absurd hp2 hpk
      | cons item rest =>
        cases hiu : item.url with
        | none => simp [cobaltLink, truthy, hu, hp2, hiu, pickerFirstUrl, Option.or]
        | some s =>
          have hs : s ≠ "" := fun h => h2 (by simp [pickerFirstUrl, hp2, hiu, h])
          simp [cobaltLink, truthy, hu, hp2, hiu, hs, pickerFirstUrl, Option.or]

/-- Witness for C8: a response carrying the address only under the
last-probed field name `audio` still yields that address. -/
theorem C8_witness :
    cobaltLink ⟨none, none, some "http://x"⟩ = .ok (some "http://x") :=
  C8_field_probing_first_present ⟨none, none, some "http://x"⟩
    (by decide) (by decide) (by decide)

/-- C9 counterexample: when every Gemini model fails, the caller of
`/generate` does not receive a "could not generate" error — it receives a
`"status": "success"` response whose markdown is the fixed apology
placeholder returned at main.py line 216. -/
theorem C9_counterexample :
    generate_notes_endpoint (some "/srv/temp_audio.mp3") (fun _ => .ok "hello world")
        (fun _ _ => .error "429 quota") "English"
      = (.success (some "Sorry, the AI is currently overloaded. Please wait 1 minute and try again.")
          "hello world", false) := rfl

/-- When every model call fails, the fallback loop returns the fixed
apology string. -/
theorem geminiFallback_all_fail (respond : String → String → Except String String)
    (prompt : String) :
    ∀ models : List String, (∀ m s, m ∈ models → respond m prompt ≠ .ok s) →
      geminiFallback respond prompt models = overloadedMsg
  | [], _ => rfl
  | m :: rest, h => by
    cases hr : respond m prompt with
    | ok s => exact absurd hr (h m s (List.mem_cons_self m rest))
    | error e =>
      simp only [geminiFallback, hr]
      exact geminiFallback_all_fail respond prompt rest
        (fun m' s hm => h m' s (List.mem_cons_of_mem _ hm))

/-- C9 amended: when the generation stage fails on every model in the
fallback list, the caller receives a success-status response whose markdown
is the fixed apology placeholder string — not a "could not generate" error
(and not the transcript-grounded document). The acquisition and
transcription stages do report per-stage errors. -/
theorem C9_amended_total_model_failure_yields_success_placeholder
    (p : String) (transcribe : String → Except String String)
    (respond : String → String → Except String String) (language t : String)
    (htr : transcribe p = .ok t) (ht : t ≠ "")
    (hre : ∀ m s pr, respond m pr ≠ .ok s) :
    generate_notes_endpoint (some p) transcribe respond language
      = (.success (some overloadedMsg) t, false) := by
  have hg : generate_study_notes respond t language = some overloadedMsg := by
    simp only [generate_study_notes, if_neg ht, get_working_gemini_response]
    rw [geminiFallback_all_fail respond _ MODEL_PRIORITY_LIST (fun m s _ => hre m s _)]
  simp [generate_notes_endpoint, htr, ht, hg]

/-- Witness for C9 amended. -/
theorem C9_witness :
    generate_notes_endpoint (some "/a.mp3") (fun _ => .ok "hello")
        (fun _ _ => .error "x") "English"
      = (.success (some overloadedMsg) "hello", false) :=
  C9_amended_total_model_failure_yields_success_placeholder "/a.mp3"
    (fun _ => .ok "hello") (fun _ _ => .error "x") "English" "hello"
    rfl (by decide) (fun m s pr h => Except.noConfusion h)

/-- C10: the prompt sent to the model — and hence, for a fixed
model-response function, the generated notes — depends only on the first
50000 characters of a non-empty transcript and on the target language; the
internally computed `target_length` (main.py line 262) is dead and has no
effect. -/
theorem C10_notes_depend_only_on_transcript_head_and_language
    (respond : String → String → Except String String)
    (target_language t1 t2 : String)
    (h1 : t1 ≠ "") (h2 : t2 ≠ "")
    (hpre : t1.take 50000 = t2.take 50000) :
    notesPrompt target_language (t1.take 50000)
        = notesPrompt target_language (t2.take 50000) ∧
    generate_study_notes respond t1 target_language
        = generate_study_notes respond t2 target_language := by
  constructor
  · rw [hpre]
  · simp only [generate_study_notes, if_neg h1, if_neg h2, hpre]

/-- Witness for C10. -/
theorem C10_witness :
    notesPrompt "English" (("hello" : String).take 50000)
        = notesPrompt "English" (("hello" : String).take 50000) ∧
    generate_study_notes (fun _ _ => .ok "ok") "hello" "English"
        = generate_study_notes (fun _ _ => .ok "ok") "hello" "English" :=
  C10_notes_depend_only_on_transcript_head_and_language (fun _ _ => .ok "ok")
    "English" "hello" "hello" (by decide) (by decide) rfl
